import Mathlib

/-!
Shallow embedding of the deduction engine of `src/main.py` (DTR-Calculator).

Conventions of the embedding:
* A time of day is its count of minutes since midnight (`time(h, m)` becomes
  `h * 60 + m`), as the source itself does inside the flexi computation.
* A fraction of a workday is an integer count of thousandths.  Every value of
  `MINUTES_TO_DAY` and `HOURS_TO_DAY` in the source is an exact multiple of
  0.001, and the engine only ever adds at most three such values before
  `round(total, 3)`; the accumulated float error of such a sum is many orders
  of magnitude below the 0.0005 rounding granularity, so `round(·, 3)` returns
  exactly the thousandths total and the integer model is faithful.
* The early `return` paths of `calculate_deductions` (an error dialog is shown
  and no result is produced) are modelled as `none`; a completed computation is
  `some breakdown`.  Unparsable time strings are rejected at the caller
  boundary and are outside the embedding: a half that is checked carries a
  genuine time value here.
-/

/-- Dictionary `MINUTES_TO_DAY` of `src/main.py` (lines 20-33), in thousandths;
the entry at list index `m` is the dictionary value at key `m`, for keys 0-60. -/
def MINUTES_TO_DAY : List Nat :=
  [0, 2, 4, 6, 8, 10, 12, 15, 17, 19, 21,
   23, 25, 27, 29, 31, 33, 35, 37, 40, 42,
   44, 46, 48, 50, 52, 54, 56, 58, 60, 62,
   65, 67, 69, 71, 73, 75, 77, 79, 81, 83,
   85, 87, 90, 92, 94, 96, 98, 100, 102, 104,
   106, 108, 110, 112, 115, 117, 119, 121, 123, 125]

/-- Python's `MINUTES_TO_DAY.get(m, 0.0)`. -/
def minutes_to_day_get (m : Nat) : Nat :=
  MINUTES_TO_DAY.getD m 0

/-- Dictionary `HOURS_TO_DAY` of `src/main.py` (lines 35-38), in thousandths;
the entry at index `h` is the value at key `h`.  The source dictionary has no
key 0 and `get(0, 0.0)` returns `0.0`, which the leading 0 entry reproduces. -/
def HOURS_TO_DAY : List Nat :=
  [0, 125, 250, 375, 500, 625, 750, 875, 1000]

/-- Python's `HOURS_TO_DAY.get(h, 0.0)`. -/
def hours_to_day_get (h : Nat) : Nat :=
  HOURS_TO_DAY.getD h 0

/-- Function `convert_time_diff_to_day_fraction(hours, minutes)` of
`src/main.py` (lines 58-65): clamp `hours` to [0, 8] and `minutes` to [0, 60],
add the two table values, round to 3 decimals.  On thousandths the final
`round(·, 3)` is the identity. -/
def convert_time_diff_to_day_fraction (hours minutes : Int) : Nat :=
  let h := max 0 (min hours 8)
  let m := max 0 (min minutes 60)
  hours_to_day_get h.toNat + minutes_to_day_get m.toNat

/-- Days of the week, as produced by `selected_date.strftime("%A")`. -/
inductive Weekday
  | monday
  | tuesday
  | wednesday
  | thursday
  | friday
  | saturday
  | sunday
deriving DecidableEq

/-- Dictionary `ALLOWED_TIMES` of `src/main.py` (lines 40-56), reduced to the
`supposed_time_in` each weekday entry carries (in minutes since midnight);
`none` for a weekday with no entry (Saturday, Sunday).  This is also the value
behind the `Supposed Time In` label that `calculate_deductions` reads back:
`update_supposed_time_in_label` (lines 1185-1192) writes
`ALLOWED_TIMES.get(day, {}).get("supposed_time_in")` into it. -/
def ALLOWED_TIMES : Weekday → Option Nat
  | .monday => some 480
  | .tuesday => some 510
  | .wednesday => some 510
  | .thursday => some 510
  | .friday => some 510
  | .saturday => none
  | .sunday => none

/-- Method `calculate_time_difference` (lines 1425-1429): signed difference in
whole minutes between two times of the same day. -/
def calculate_time_difference (earlier_time later_time : Nat) : Int :=
  (later_time : Int) - (earlier_time : Int)

/-- Input state of one `calculate_deductions` run: the selected date's weekday,
the two presence checkboxes, and the two parsed time fields.  A time field is
only read by the engine when its checkbox is set. -/
structure DayInput where
  weekday : Weekday
  morning_check : Bool
  morning_actual_time_in : Nat
  afternoon_check : Bool
  afternoon_actual_time_out : Nat
deriving DecidableEq

/-- Values computed and displayed by one `calculate_deductions` run.
Deductions are in thousandths of a day. -/
structure DeductionBreakdown where
  late_minutes : Int
  late_deduction : Nat
  supposed_time_out : Option Nat
  undertime_minutes : Int
  undertime_deduction : Nat
  half_day_deduction : Nat
  total_deduction : Nat
deriving DecidableEq

/-- Morning section of `calculate_deductions` (lines 1438-1470).  When the
morning box is checked and the weekday has no `supposed_time_in`, the code
shows an error and returns without a result (`none` here); otherwise it yields
`(late_minutes, late_deduction)`, with `(0, 0)` when the box is unchecked. -/
def morning_late_result (weekday : Weekday) (morning_check : Bool)
    (morning_actual_time_in : Nat) : Option (Int × Nat) :=
  if morning_check then
    match ALLOWED_TIMES weekday with
    | none => none
    | some supposed_time_in =>
      let late_minutes : Int :=
        max 0 (calculate_time_difference supposed_time_in morning_actual_time_in)
      some (late_minutes,
        convert_time_diff_to_day_fraction (late_minutes.ediv 60) (late_minutes.emod 60))
  else some (0, 0)

/-- Supposed-time-out section of `calculate_deductions` (lines 1472-1528):
flexi clamp when both halves are checked, fixed 17:00/17:30 when only the
afternoon is checked, otherwise no supposed time out. -/
def resolved_supposed_time_out (weekday : Weekday)
    (morning_check afternoon_check : Bool) (morning_actual_time_in : Nat) : Option Nat :=
  if morning_check && afternoon_check then
    let in_minutes := morning_actual_time_in
    let in_minutes := if in_minutes < 450 then 450
      else if in_minutes > 510 then 510 else in_minutes
    let out_minutes := in_minutes + 540
    let out_minutes :=
      if weekday = Weekday.monday then
        if out_minutes < 990 then 990
        else if out_minutes > 1020 then 1020 else out_minutes
      else
        if out_minutes < 990 then 990
        else if out_minutes > 1050 then 1050 else out_minutes
    some out_minutes
  else if !morning_check && afternoon_check then
    if weekday = Weekday.monday then some 1020 else some 1050
  else
    none

/-- Afternoon section of `calculate_deductions` (lines 1530-1557): yields
`(undertime_minutes, undertime_deduction)`; both are zero when the afternoon
box is unchecked, and the minutes are zero when no supposed time out exists. -/
def afternoon_undertime_result (afternoon_check : Bool) (supposed_time_out : Option Nat)
    (afternoon_actual_time_out : Nat) : Int × Nat :=
  if afternoon_check then
    match supposed_time_out with
    | some sto =>
      let undertime_minutes : Int :=
        max 0 (calculate_time_difference afternoon_actual_time_out sto)
      (undertime_minutes,
        convert_time_diff_to_day_fraction (undertime_minutes.ediv 60) (undertime_minutes.emod 60))
    | none => (0, convert_time_diff_to_day_fraction 0 0)
  else (0, 0)

/-- Method `calculate_deductions` of `src/main.py` (lines 1431-1575), composed
from its three sections plus the half-day term (lines 1559-1567):
`half_day_deduction = 0.5` per unchecked half, and
`total = round(late + undertime + half_day, 3)`. -/
def calculate_deductions (i : DayInput) : Option DeductionBreakdown :=
  match morning_late_result i.weekday i.morning_check i.morning_actual_time_in with
  | none => none
  | some (late_minutes, late_deduction) =>
    let sto := resolved_supposed_time_out i.weekday i.morning_check
      i.afternoon_check i.morning_actual_time_in
    let au := afternoon_undertime_result i.afternoon_check sto i.afternoon_actual_time_out
    let half_day_absences : Nat :=
      (if i.morning_check then 0 else 1) + (if i.afternoon_check then 0 else 1)
    let half_day_deduction := half_day_absences * 500
    some {
      late_minutes := late_minutes
      late_deduction := late_deduction
      supposed_time_out := sto
      undertime_minutes := au.1
      undertime_deduction := au.2
      half_day_deduction := half_day_deduction
      total_deduction := late_deduction + au.2 + half_day_deduction
    }

/-- Modelled from the spec wording of the flexi rule (section 4.2): clamp the
morning actual time in to [450, 510], add 540, clamp to [990, 1020] on Monday
and to [990, 1050] otherwise. -/
def flexi_supposed_time_out_spec (monday : Bool) (morning_actual_time_in : Nat) : Nat :=
  let clamped_in := min (max morning_actual_time_in 450) 510
  let raw_out := clamped_in + 540
  if monday then min (max raw_out 990) 1020 else min (max raw_out 990) 1050

/-- Modelled from the claim wording for the minute table: `m * 0.125 / 60`
rounded to 3 decimals with ties to even, in thousandths, i.e. `25 * m / 12`
rounded half to even. -/
def claimed_minute_fraction_half_even (m : Nat) : Nat :=
  let p := 25 * m
  let f := p / 12
  let r := p % 12
  if 6 < r then f + 1
  else if r < 6 then f
  else if f % 2 = 0 then f else f + 1

/-! ## Helper lemmas -/

/-- The inline flexi computation of `calculate_deductions` agrees with the
spec-worded clamp formula. -/
theorem resolved_flexi_eq_spec (w : Weekday) (tin : Nat) :
    resolved_supposed_time_out w true true tin =
      some (flexi_supposed_time_out_spec (w == Weekday.monday) tin) := by
  cases w <;>
    simp only [resolved_supposed_time_out, flexi_supposed_time_out_spec,
      Bool.and_self, if_true, beq_self_eq_true, beq_iff_eq, reduceCtorEq,
      if_false, Option.some_inj, reduceIte] <;>
    split_ifs <;> omega

/-- The morning section never reports negative late minutes. -/
theorem morning_late_result_fst_nonneg (w : Weekday) (c : Bool) (t : Nat)
    (lm : Int) (ld : Nat) (h : morning_late_result w c t = some (lm, ld)) :
    0 ≤ lm := by
  unfold morning_late_result at h
  split at h
  · split at h
    · exact absurd h (by simp)
    · simp only [Option.some.injEq, Prod.mk.injEq] at h
      rw [← h.1]
      exact le_max_left 0 _
  · simp only [Option.some.injEq, Prod.mk.injEq] at h
    rw [← h.1]

/-- The afternoon section never reports negative undertime minutes. -/
theorem afternoon_undertime_result_fst_nonneg (c : Bool) (sto : Option Nat)
    (out : Nat) : 0 ≤ (afternoon_undertime_result c sto out).1 := by
  unfold afternoon_undertime_result
  cases c
  · simp
  · cases sto
    · simp
    · simp only [if_true]
      exact le_max_left 0 _

/-! ## Claim theorems -/

/-- C1 counterexample: on Monday the supposed time in is 08:00, so a morning
arrival at 08:15 (495 minutes) with afternoon out at 17:30 (1050) yields
`late_minutes = 15`, not the claimed 0.  (Input fields: weekday, morning
checked, morning in, afternoon checked, afternoon out.) -/
theorem c1_counterexample :
    (calculate_deductions ⟨Weekday.monday, true, 495, true, 1050⟩).map
      DeductionBreakdown.late_minutes ≠ some 0 := by decide

/-- C1 amended: Monday, morning in 08:15, afternoon out 17:30 gives
`late_minutes = 15`, `late_deduction = 0.031`, supposed time out 17:00,
`undertime_minutes = 0`, and `total_deduction = 0.031`. -/
theorem c1_amended :
    calculate_deductions ⟨Weekday.monday, true, 495, true, 1050⟩ =
      some ⟨15, 31, some 1020, 0, 0, 0, 31⟩ := by decide

/-- C2: when both halves are worked on a weekday with a policy entry, the
supposed time out is the clamp formula (clamp arrival to [450, 510], add 540,
clamp to [990, 1020] on Monday and [990, 1050] otherwise); in particular a
09:00 arrival gives 17:00 on Monday and 17:30 on Tuesday. -/
theorem c2_flexi_rule (i : DayInput) (hm : i.morning_check = true)
    (ha : i.afternoon_check = true) (hw : ALLOWED_TIMES i.weekday ≠ none) :
    (calculate_deductions i).map DeductionBreakdown.supposed_time_out =
      some (some (flexi_supposed_time_out_spec (i.weekday == Weekday.monday)
        i.morning_actual_time_in)) ∧
    resolved_supposed_time_out Weekday.monday true true 540 = some 1020 ∧
    resolved_supposed_time_out Weekday.tuesday true true 540 = some 1050 := by
  refine ⟨?_, by decide, by decide⟩
  obtain ⟨s, hs⟩ : ∃ s, ALLOWED_TIMES i.weekday = some s := by
    cases hA : ALLOWED_TIMES i.weekday
    · exact absurd hA hw
    · exact ⟨_, rfl⟩
  simp [calculate_deductions, morning_late_result, hm, ha, hs, resolved_flexi_eq_spec]

/-- C2 witness at Monday, 09:00 arrival, both halves worked. -/
theorem c2_witness :
    (calculate_deductions ⟨Weekday.monday, true, 540, true, 1020⟩).map
      DeductionBreakdown.supposed_time_out =
      some (some (flexi_supposed_time_out_spec (Weekday.monday == Weekday.monday) 540)) ∧
    resolved_supposed_time_out Weekday.monday true true 540 = some 1020 ∧
    resolved_supposed_time_out Weekday.tuesday true true 540 = some 1050 :=
  c2_flexi_rule ⟨Weekday.monday, true, 540, true, 1020⟩ rfl rfl (by decide)

/-- C3 counterexample: on Saturday (no policy entry) with both halves
unchecked, the engine still charges the two half-day penalties and returns
`total_deduction = 1.000`, not an all-zero breakdown. -/
theorem c3_counterexample :
    (calculate_deductions ⟨Weekday.saturday, false, 0, false, 0⟩).map
      DeductionBreakdown.total_deduction ≠ some 0 := by decide

/-- C3 amended: on a weekday with no policy entry the engine does not return a
zero breakdown.  If the morning is marked present it aborts with an error (no
result).  Otherwise it proceeds exactly as on a Tuesday-to-Friday weekday:
both halves absent gives `total_deduction = 1.000`, and afternoon-only gives
the fixed 17:30 supposed time out plus the 0.5 half-day penalty. -/
theorem c3_amended (i : DayInput) (hw : ALLOWED_TIMES i.weekday = none) :
    (i.morning_check = true → calculate_deductions i = none) ∧
    (i.morning_check = false → i.afternoon_check = false →
      (calculate_deductions i).map DeductionBreakdown.total_deduction = some 1000) ∧
    (i.morning_check = false → i.afternoon_check = true →
      (calculate_deductions i).map DeductionBreakdown.supposed_time_out =
        some (some 1050) ∧
      (calculate_deductions i).map DeductionBreakdown.half_day_deduction =
        some 500) := by
  have hnm : i.weekday ≠ Weekday.monday := by
    intro h
    rw [h] at hw
    exact absurd hw (by decide)
  refine ⟨fun hm => ?_, fun hm ha => ?_, fun hm ha => ?_⟩
  · simp [calculate_deductions, morning_late_result, hm, hw]
  · simp [calculate_deductions, morning_late_result, resolved_supposed_time_out,
      afternoon_undertime_result, hm, ha]
  · constructor <;>
      simp [calculate_deductions, morning_late_result, resolved_supposed_time_out,
        afternoon_undertime_result, hm, ha, hnm]

/-- C3 witness: Saturday, morning unchecked, afternoon checked with out at
17:00 — the engine charges as on a regular non-Monday weekday. -/
theorem c3_witness :
    (calculate_deductions ⟨Weekday.saturday, false, 0, true, 1020⟩).map
      DeductionBreakdown.supposed_time_out = some (some 1050) ∧
    (calculate_deductions ⟨Weekday.saturday, false, 0, true, 1020⟩).map
      DeductionBreakdown.half_day_deduction = some 500 :=
  (c3_amended ⟨Weekday.saturday, false, 0, true, 1020⟩ rfl).2.2 rfl rfl

/-- C4 counterexample: the minute table of the source maps minute 30 to 0.062,
not the claimed 0.056 (0.056 is the entry at minute 27). -/
theorem c4_counterexample :
    convert_time_diff_to_day_fraction 0 30 ≠ 56 := by decide

/-- C4 amended: the minute-to-fraction table maps minute 30 to 0.062 and
minute 31 to 0.065. -/
theorem c4_amended :
    convert_time_diff_to_day_fraction 0 30 = 62 ∧
    convert_time_diff_to_day_fraction 0 31 = 65 := by decide

/-- C5: on any weekday with a policy entry, unchecking both halves yields
`total_deduction = 1.000` exactly, made of the two 0.5 half-day penalties and
no late or undertime contribution. -/
theorem c5_both_absent (i : DayInput) (_hw : ALLOWED_TIMES i.weekday ≠ none)
    (hm : i.morning_check = false) (ha : i.afternoon_check = false) :
    (calculate_deductions i).map DeductionBreakdown.total_deduction = some 1000 ∧
    (calculate_deductions i).map DeductionBreakdown.half_day_deduction = some 1000 ∧
    (calculate_deductions i).map DeductionBreakdown.late_deduction = some 0 ∧
    (calculate_deductions i).map DeductionBreakdown.undertime_deduction = some 0 := by
  refine ⟨?_, ?_, ?_, ?_⟩ <;>
    simp [calculate_deductions, morning_late_result, resolved_supposed_time_out,
      afternoon_undertime_result, hm, ha]

/-- C5 witness at Monday with both halves unchecked. -/
theorem c5_witness :
    (calculate_deductions ⟨Weekday.monday, false, 0, false, 0⟩).map
      DeductionBreakdown.total_deduction = some 1000 ∧
    (calculate_deductions ⟨Weekday.monday, false, 0, false, 0⟩).map
      DeductionBreakdown.half_day_deduction = some 1000 ∧
    (calculate_deductions ⟨Weekday.monday, false, 0, false, 0⟩).map
      DeductionBreakdown.late_deduction = some 0 ∧
    (calculate_deductions ⟨Weekday.monday, false, 0, false, 0⟩).map
      DeductionBreakdown.undertime_deduction = some 0 :=
  c5_both_absent ⟨Weekday.monday, false, 0, false, 0⟩ (by decide) rfl rfl

/-- C6: Wednesday with morning unchecked and afternoon out at 17:00 resolves
the fixed half-day supposed time out 17:30, giving `undertime_minutes = 30`
and `total_deduction` equal to the 30-minute table value plus 0.5. -/
theorem c6_scenario_c :
    calculate_deductions ⟨Weekday.wednesday, false, 0, true, 1020⟩ =
      some ⟨0, 0, some 1050, 30, convert_time_diff_to_day_fraction 0 30, 500,
        convert_time_diff_to_day_fraction 0 30 + 500⟩ := by decide

/-- C7: the minute-to-fraction lookup is monotonically non-decreasing over
minutes 0 to 60. -/
theorem c7_minute_table_monotone (m1 m2 : Nat) (h12 : m1 ≤ m2) (h2 : m2 ≤ 60) :
    convert_time_diff_to_day_fraction 0 (m1 : Int) ≤
      convert_time_diff_to_day_fraction 0 (m2 : Int) := by
  have key : ∀ b : Nat, b < 61 → ∀ a : Nat, a < 61 → a ≤ b →
      convert_time_diff_to_day_fraction 0 ((a : Nat) : Int) ≤
        convert_time_diff_to_day_fraction 0 ((b : Nat) : Int) := by decide
  exact key m2 (by omega) m1 (by omega) h12

/-- C7 witness at minutes 30 and 31. -/
theorem c7_witness :
    convert_time_diff_to_day_fraction 0 ((30 : Nat) : Int) ≤
      convert_time_diff_to_day_fraction 0 ((31 : Nat) : Int) :=
  c7_minute_table_monotone 30 31 (by decide) (by decide)

/-- C8: any completed computation reports non-negative late and undertime
minutes: an early or on-time arrival or departure is capped at zero. -/
theorem c8_minutes_nonneg (i : DayInput) (b : DeductionBreakdown)
    (h : calculate_deductions i = some b) :
    0 ≤ b.late_minutes ∧ 0 ≤ b.undertime_minutes := by
  unfold calculate_deductions at h
  cases hml : morning_late_result i.weekday i.morning_check i.morning_actual_time_in with
  | none =>
    rw [hml] at h
    exact absurd h (by simp)
  | some p =>
    obtain ⟨lm, ld⟩ := p
    rw [hml] at h
    simp only [Option.some.injEq] at h
    subst h
    exact ⟨morning_late_result_fst_nonneg _ _ _ _ _ hml,
      afternoon_undertime_result_fst_nonneg _ _ _⟩

/-- C8 witness: Tuesday, in 09:15 and out 16:40, where both counts are
positive. -/
theorem c8_witness :
    0 ≤ DeductionBreakdown.late_minutes ⟨45, 94, some 1050, 50, 104, 0, 198⟩ ∧
    0 ≤ DeductionBreakdown.undertime_minutes ⟨45, 94, some 1050, 50, 104, 0, 198⟩ :=
  c8_minutes_nonneg ⟨Weekday.tuesday, true, 555, true, 1000⟩
    ⟨45, 94, some 1050, 50, 104, 0, 198⟩ (by decide)

/-- C9 counterexample: at minute 18 the table holds 0.037, but 18/480 rounded
to 3 decimals with ties to even is 0.038 (18/480 = 0.0375 exactly). -/
theorem c9_counterexample :
    minutes_to_day_get 18 ≠ claimed_minute_fraction_half_even 18 := by decide

/-- C9 amended: for every minute 0-60 the table entry equals m/480 rounded to
3 decimals with exact halves rounded down, i.e. `(50 * m + 11) / 24`
thousandths; the ties-to-even reading differs at minutes 18 and 42, where the
half falls and the table keeps 0.037 and 0.087. -/
theorem c9_amended (m : Nat) (h : m ≤ 60) :
    minutes_to_day_get m = (50 * m + 11) / 24 := by
  have key : ∀ x < 61, minutes_to_day_get x = (50 * x + 11) / 24 := by decide
  exact key m (by omega)

/-- C9 witness at minute 30. -/
theorem c9_witness : minutes_to_day_get 30 = (50 * 30 + 11) / 24 :=
  c9_amended 30 (by decide)

/-- C10: an unchecked half's time field does not influence the result: with
the morning unchecked, changing the morning time leaves the whole breakdown
unchanged, and symmetrically for the afternoon. -/
theorem c10_unused_time_independent (i : DayInput) (t : Nat) :
    (i.morning_check = false →
      calculate_deductions { i with morning_actual_time_in := t } =
        calculate_deductions i) ∧
    (i.afternoon_check = false →
      calculate_deductions { i with afternoon_actual_time_out := t } =
        calculate_deductions i) := by
  constructor
  · intro hm
    simp [calculate_deductions, morning_late_result, resolved_supposed_time_out,
      afternoon_undertime_result, hm]
  · intro ha
    cases hml : morning_late_result i.weekday i.morning_check i.morning_actual_time_in <;>
      simp [calculate_deductions, resolved_supposed_time_out,
        afternoon_undertime_result, ha, hml]

/-- C10 witness: Wednesday afternoon-only day, morning time field changed from
0 to 777 with the morning unchecked. -/
theorem c10_witness :
    calculate_deductions ⟨Weekday.wednesday, false, 777, true, 1020⟩ =
      calculate_deductions ⟨Weekday.wednesday, false, 0, true, 1020⟩ :=
  (c10_unused_time_independent ⟨Weekday.wednesday, false, 0, true, 1020⟩ 777).1 rfl
